import Mathlib

/-!
Shallow embedding of the hpa-exporter status-projection pipeline and
log-shipment subsystem (main.go and the metrics package in
pkg/setting/setting.go).

Modelling conventions:
* Kubernetes `resource.Quantity` values are represented by their
  `MilliValue()` as `Int`; Go `float64` arithmetic on these values is
  modelled exactly over `ℚ` (the divisions by 1000 the code performs are
  treated as exact rational division).
* `prometheus.Labels` maps with a fixed key schema are represented by
  structures with one `String` field per key; `MergeLabels` of the disjoint
  base/metric/condition schemas is represented by pairing.
* A `GaugeVec` is an association list from its label structure to the last
  `Set` value; `Reset` empties it.
* Log output (prometheus/common/log) is modelled as the list of emitted
  lines; `time.Sleep` as the number of seconds the loop iteration requests
  before the next iteration.
* The CloudWatch Logs store is an external collaborator; it is modelled at
  its interface (describe / create stream / put events with sequence-token
  checking) with a single configured stream, matching the fixed
  `cwLogGroup`/`cwLogStream` flags. Interleaved writers are modelled by an
  interference function applied between the describe call and the put call,
  mirroring the fact that the Go code makes two separate network calls.
-/

set_option autoImplicit false

namespace HpaExporter

/-- `as_v2.CrossVersionObjectReference`: the fields the exporter reads. -/
structure CrossVersionObjectReference where
  kind : String
  name : String
  apiVersion : String
deriving DecidableEq

/-- `as_v2.ObjectMetricSource`, fields read by `ParseObjectSpec`. -/
structure ObjectMetricSource where
  target : CrossVersionObjectReference
  metricName : String
  targetValue : Int
deriving DecidableEq

/-- `as_v2.PodsMetricSource`, fields read by `ParsePodsSpec`. -/
structure PodsMetricSource where
  metricName : String
  targetAverageValue : Int
deriving DecidableEq

/-- `as_v2.ResourceMetricSource`, fields read by `ParseResourceSpec`.
`targetAverageUtilization` is a nullable pointer in Go; `targetAverageValue`
is dereferenced only when the utilization is absent. -/
structure ResourceMetricSource where
  name : String
  targetAverageUtilization : Option Int
  targetAverageValue : Int
deriving DecidableEq

/-- `as_v2.ExternalMetricSource`, fields read by `ParseExternalSpec`. -/
structure ExternalMetricSource where
  metricName : String
  targetValue : Int
  targetAverageValue : Option Int
deriving DecidableEq

/-- `as_v2.ObjectMetricStatus`, fields read by `ParseObjectStatus`. -/
structure ObjectMetricStatus where
  target : CrossVersionObjectReference
  metricName : String
  currentValue : Int
deriving DecidableEq

/-- `as_v2.PodsMetricStatus`, fields read by `ParsePodsStatus`. -/
structure PodsMetricStatus where
  metricName : String
  currentAverageValue : Int
deriving DecidableEq

/-- `as_v2.ResourceMetricStatus`, fields read by `ParseResourceStatus`. -/
structure ResourceMetricStatus where
  name : String
  currentAverageUtilization : Option Int
  currentAverageValue : Int
deriving DecidableEq

/-- `as_v2.ExternalMetricStatus`, fields read by `ParseExternalStatus`. -/
structure ExternalMetricStatus where
  metricName : String
  currentValue : Int
  currentAverageValue : Option Int
deriving DecidableEq

/-- One entry of `a.Spec.Metrics`: the Go struct carries a `Type` tag plus
one populated variant pointer; the `switch metric.Type` in main.go with its
`default: continue` is a sum type with an unknown fallthrough. -/
inductive MetricSpecEntry where
  | object (m : ObjectMetricSource)
  | pods (m : PodsMetricSource)
  | resource (m : ResourceMetricSource)
  | external (m : ExternalMetricSource)
  | unknown
deriving DecidableEq

/-- One entry of `a.Status.CurrentMetrics`, tagged the same way. -/
inductive MetricStatusEntry where
  | object (m : ObjectMetricStatus)
  | pods (m : PodsMetricStatus)
  | resource (m : ResourceMetricStatus)
  | external (m : ExternalMetricStatus)
  | unknown
deriving DecidableEq

/-- `as_v2.HorizontalPodAutoscalerCondition`: type, status, reason, message.
`Status` (`core_v1.ConditionStatus`) is a string type with values such as
`"True"`, `"False"`, `"Unknown"`. -/
structure Condition where
  condType : String
  status : String
  reason : String
  message : String
deriving DecidableEq

/-- The fields of `as_v2.HorizontalPodAutoscaler` the exporter reads. -/
structure HorizontalPodAutoscaler where
  name : String
  namespc : String
  scaleTargetRef : CrossVersionObjectReference
  minReplicas : Option Int
  maxReplicas : Int
  specMetrics : List MetricSpecEntry
  currentReplicas : Int
  desiredReplicas : Int
  lastScaleTime : Option Int
  currentMetrics : List MetricStatusEntry
  conditions : List Condition
deriving DecidableEq

/-- `commonMetrics` from setting.go: the normalized MetricRecord. -/
structure commonMetrics where
  Kind : String
  Name : String
  MetricName : String
  Value : ℚ
deriving DecidableEq

/-- `ParseObjectSpec` (setting.go): kind/name from the referenced target,
value is the target quantity milli-value divided by 1000. -/
def ParseObjectSpec (m : ObjectMetricSource) : commonMetrics :=
  { Kind := m.target.kind
    Name := m.target.name
    MetricName := m.metricName
    Value := (m.targetValue : ℚ) / 1000 }

/-- `ParsePodsSpec` (setting.go). -/
def ParsePodsSpec (m : PodsMetricSource) : commonMetrics :=
  { Kind := "Pod"
    Name := "-"
    MetricName := m.metricName
    Value := (m.targetAverageValue : ℚ) / 1000 }

/-- `ParseResourceSpec` (setting.go): utilization if present, else the
average-value quantity milli-scaled. -/
def ParseResourceSpec (m : ResourceMetricSource) : commonMetrics :=
  let t : ℚ :=
    match m.targetAverageUtilization with
    | none => (m.targetAverageValue : ℚ) / 1000
    | some u => (u : ℚ)
  { Kind := "Resource"
    Name := m.name
    MetricName := "-"
    Value := t }

/-- `ParseExternalSpec` (setting.go): average value if present, else the
plain target value, milli-scaled either way. -/
def ParseExternalSpec (m : ExternalMetricSource) : commonMetrics :=
  let t : ℚ :=
    match m.targetAverageValue with
    | none => (m.targetValue : ℚ) / 1000
    | some a => (a : ℚ) / 1000
  { Kind := "External"
    Name := "-"
    MetricName := m.metricName
    Value := t }

/-- `ParseObjectStatus` (setting.go). -/
def ParseObjectStatus (m : ObjectMetricStatus) : commonMetrics :=
  { Kind := m.target.kind
    Name := m.target.name
    MetricName := m.metricName
    Value := (m.currentValue : ℚ) / 1000 }

/-- `ParsePodsStatus` (setting.go). -/
def ParsePodsStatus (m : PodsMetricStatus) : commonMetrics :=
  { Kind := "Pod"
    Name := "-"
    MetricName := m.metricName
    Value := (m.currentAverageValue : ℚ) / 1000 }

/-- `ParseResourceStatus` (setting.go). -/
def ParseResourceStatus (m : ResourceMetricStatus) : commonMetrics :=
  let t : ℚ :=
    match m.currentAverageUtilization with
    | none => (m.currentAverageValue : ℚ) / 1000
    | some u => (u : ℚ)
  { Kind := "Resource"
    Name := m.name
    MetricName := "-"
    Value := t }

/-- `ParseExternalStatus` (setting.go). -/
def ParseExternalStatus (m : ExternalMetricStatus) : commonMetrics :=
  let t : ℚ :=
    match m.currentAverageValue with
    | none => (m.currentValue : ℚ) / 1000
    | some a => (a : ℚ) / 1000
  { Kind := "External"
    Name := "-"
    MetricName := m.metricName
    Value := t }

/-- The `baseLabels` schema (5 keys identifying the scaled object). -/
structure BaseLabels where
  hpa_name : String
  hpa_namespace : String
  ref_kind : String
  ref_name : String
  ref_apiversion : String
deriving DecidableEq

/-- The `metricLabels` schema (3 keys). -/
structure MetricLabels where
  metric_kind : String
  metric_name : String
  metric_metricname : String
deriving DecidableEq

/-- The `annoLabels` schema (3 condition keys). -/
structure CondLabels where
  cond_status : String
  cond_reason : String
  cond_message : String
deriving DecidableEq

/-- `ParseCommonMetrics` (setting.go): value plus the metric label set. -/
def ParseCommonMetrics (m : commonMetrics) : ℚ × MetricLabels :=
  (m.Value, { metric_kind := m.Kind, metric_name := m.Name, metric_metricname := m.MetricName })

/-- `MakeAnnotationCondLabels` (setting.go): the forward label set carries
the condition status/reason/message as-is; the reverse set carries
`"False"` when the status is `"True"` and `"True"` otherwise, with reason
and message cleared to the empty string. -/
def MakeAnnotationCondLabels (cond : Condition) : CondLabels × CondLabels :=
  let labelForward : CondLabels :=
    { cond_status := cond.status
      cond_reason := cond.reason
      cond_message := cond.message }
  let statusReverse : String := if cond.status = "True" then "False" else "True"
  let labelReverse : CondLabels :=
    { cond_status := statusReverse
      cond_reason := ""
      cond_message := "" }
  (labelForward, labelReverse)

/-- A `prometheus.GaugeVec` keyed by label type `α`: the association list of
label combinations that have been `Set` since the last `Reset`, with the
last value set for each. -/
def Gauge (α : Type) : Type := List (α × ℚ)

/-- `With(labels).Set(v)`: overwrite the value for an existing label
combination, or add the combination. -/
def gaugeSet {α : Type} [DecidableEq α] : Gauge α → α → ℚ → Gauge α
  | [], k, v => [(k, v)]
  | (k0, v0) :: t, k, v =>
      if k0 = k then (k, v) :: t else (k0, v0) :: gaugeSet t k v

/-- Read back the value recorded for a label combination, if any. -/
def gaugeGet {α : Type} [DecidableEq α] : Gauge α → α → Option ℚ
  | [], _ => none
  | (k0, v0) :: t, k => if k0 = k then some v0 else gaugeGet t k

/-- The in-memory registry: one gauge per collector in `collectors`
(setting.go), each with its declared label schema. -/
structure Registry where
  hpaCurrentPodsNum : Gauge BaseLabels
  hpaDesiredPodsNum : Gauge BaseLabels
  hpaMinPodsNum : Gauge BaseLabels
  hpaMaxPodsNum : Gauge BaseLabels
  hpaLastScaleSecond : Gauge BaseLabels
  hpaCurrentMetricsValue : Gauge (BaseLabels × MetricLabels)
  hpaTargetMetricsValue : Gauge (BaseLabels × MetricLabels)
  hpaAbleToScale : Gauge (BaseLabels × CondLabels)
  hpaScalingActive : Gauge (BaseLabels × CondLabels)
  hpaScalingLimited : Gauge (BaseLabels × CondLabels)

/-- The registry at process start, and after a full reset. -/
def emptyRegistry : Registry :=
  { hpaCurrentPodsNum := []
    hpaDesiredPodsNum := []
    hpaMinPodsNum := []
    hpaMaxPodsNum := []
    hpaLastScaleSecond := []
    hpaCurrentMetricsValue := []
    hpaTargetMetricsValue := []
    hpaAbleToScale := []
    hpaScalingActive := []
    hpaScalingLimited := [] }

/-- `ResetAllMetric` (setting.go): `Reset()` every gauge collection. -/
def ResetAllMetric (_r : Registry) : Registry := emptyRegistry

/-- The `baseLabel` map built at the top of the per-snapshot loop in
main.go. -/
def baseLabelOf (a : HorizontalPodAutoscaler) : BaseLabels :=
  { hpa_name := a.name
    hpa_namespace := a.namespc
    ref_kind := a.scaleTargetRef.kind
    ref_name := a.scaleTargetRef.name
    ref_apiversion := a.scaleTargetRef.apiVersion }

/-- main.go lines 75-83: the replica gauges. Current, desired and max are
set unconditionally; min only when `Spec.MinReplicas` is non-nil; the
last-scale second only when `Status.LastScaleTime` is non-nil. -/
def projectReplicaGauges (b : BaseLabels) (a : HorizontalPodAutoscaler)
    (r : Registry) : Registry :=
  let r1 := { r with hpaCurrentPodsNum := gaugeSet r.hpaCurrentPodsNum b (a.currentReplicas : ℚ) }
  let r2 := { r1 with hpaDesiredPodsNum := gaugeSet r1.hpaDesiredPodsNum b (a.desiredReplicas : ℚ) }
  let r3 :=
    match a.minReplicas with
    | some m => { r2 with hpaMinPodsNum := gaugeSet r2.hpaMinPodsNum b (m : ℚ) }
    | none => r2
  let r4 := { r3 with hpaMaxPodsNum := gaugeSet r3.hpaMaxPodsNum b (a.maxReplicas : ℚ) }
  match a.lastScaleTime with
  | some t => { r4 with hpaLastScaleSecond := gaugeSet r4.hpaLastScaleSecond b (t : ℚ) }
  | none => r4

/-- main.go lines 85-106: dispatch one `Spec.Metrics` entry and set
`HpaTargetMetricsValue`; unknown kinds are skipped. -/
def projectSpecMetric (b : BaseLabels) (r : Registry) (metric : MetricSpecEntry) : Registry :=
  match metric with
  | .object m =>
      let p := ParseCommonMetrics (ParseObjectSpec m)
      { r with hpaTargetMetricsValue := gaugeSet r.hpaTargetMetricsValue (b, p.2) p.1 }
  | .pods m =>
      let p := ParseCommonMetrics (ParsePodsSpec m)
      { r with hpaTargetMetricsValue := gaugeSet r.hpaTargetMetricsValue (b, p.2) p.1 }
  | .resource m =>
      let p := ParseCommonMetrics (ParseResourceSpec m)
      { r with hpaTargetMetricsValue := gaugeSet r.hpaTargetMetricsValue (b, p.2) p.1 }
  | .external m =>
      let p := ParseCommonMetrics (ParseExternalSpec m)
      { r with hpaTargetMetricsValue := gaugeSet r.hpaTargetMetricsValue (b, p.2) p.1 }
  | .unknown => r

/-- main.go lines 108-129: dispatch one `Status.CurrentMetrics` entry and
set `HpaCurrentMetricsValue`; unknown kinds are skipped. -/
def projectStatusMetric (b : BaseLabels) (r : Registry) (metric : MetricStatusEntry) : Registry :=
  match metric with
  | .object m =>
      let p := ParseCommonMetrics (ParseObjectStatus m)
      { r with hpaCurrentMetricsValue := gaugeSet r.hpaCurrentMetricsValue (b, p.2) p.1 }
  | .pods m =>
      let p := ParseCommonMetrics (ParsePodsStatus m)
      { r with hpaCurrentMetricsValue := gaugeSet r.hpaCurrentMetricsValue (b, p.2) p.1 }
  | .resource m =>
      let p := ParseCommonMetrics (ParseResourceStatus m)
      { r with hpaCurrentMetricsValue := gaugeSet r.hpaCurrentMetricsValue (b, p.2) p.1 }
  | .external m =>
      let p := ParseCommonMetrics (ParseExternalStatus m)
      { r with hpaCurrentMetricsValue := gaugeSet r.hpaCurrentMetricsValue (b, p.2) p.1 }
  | .unknown => r

/-- main.go lines 131-144: one `Status.Conditions` entry. For each of the
three known condition types the forward labels get value 1 and the reverse
labels value 0 on the same gauge; other types fall through the switch. -/
def projectCondition (b : BaseLabels) (r : Registry) (cond : Condition) : Registry :=
  let p := MakeAnnotationCondLabels cond
  if cond.condType = "AbleToScale" then
    { r with hpaAbleToScale :=
        gaugeSet (gaugeSet r.hpaAbleToScale (b, p.1) 1) (b, p.2) 0 }
  else if cond.condType = "ScalingActive" then
    { r with hpaScalingActive :=
        gaugeSet (gaugeSet r.hpaScalingActive (b, p.1) 1) (b, p.2) 0 }
  else if cond.condType = "ScalingLimited" then
    { r with hpaScalingLimited :=
        gaugeSet (gaugeSet r.hpaScalingLimited (b, p.1) 1) (b, p.2) 0 }
  else r

/-- The whole per-snapshot body of the metrics loop (main.go lines 66-145):
replica gauges, then the spec-metrics loop, then the status-metrics loop,
then the conditions loop. -/
def projectSnapshot (a : HorizontalPodAutoscaler) (r : Registry) : Registry :=
  a.conditions.foldl (projectCondition (baseLabelOf a))
    (a.currentMetrics.foldl (projectStatusMetric (baseLabelOf a))
      (a.specMetrics.foldl (projectSpecMetric (baseLabelOf a))
        (projectReplicaGauges (baseLabelOf a) a r)))

/-- One iteration of the metrics goroutine loop (main.go lines 59-147).
Takes the result the fetch would return this cycle, the registry and the
log lines so far; returns the new registry, log lines, and the number of
seconds slept before the next iteration. On fetch error the code logs and
`continue`s, which skips the `time.Sleep` at the bottom of the loop; on
success it resets every gauge, projects every snapshot, and sleeps for
`MetricsInterval` seconds. -/
def pollIteration (interval : Int) (fetch : Except String (List HorizontalPodAutoscaler))
    (r : Registry) (logLines : List String) : Registry × List String × Int :=
  match fetch with
  | .error e => (r, logLines ++ ["error: " ++ e], 0)
  | .ok hpa =>
      (hpa.foldl (fun acc a => projectSnapshot a acc) (ResetAllMetric r),
       logLines, interval)

/-- One appended batch as the log store records it: the messages, the shared
timestamp (milliseconds), and the sequence token the writer presented. -/
structure LogBatch where
  messages : List String
  timestamp : Int
  sequenceToken : Option String
deriving DecidableEq

/-- The state of the external log store, restricted to the one configured
group/stream pair (`cwLogGroup`/`cwLogStream` are fixed flags). A fresh
stream has no upload sequence token; each accepted batch advances the
token. `createStreamCalls` counts `CreateLogStream` requests issued. -/
structure CWState where
  streamExists : Bool
  streamToken : Option String
  batches : List LogBatch
  createStreamCalls : Nat
deriving DecidableEq

/-- `DescribeLogStreams` at the store interface: the (at most one) stream
matching the configured name, as its upload sequence token. -/
def describeLogStreams (st : CWState) : List (Option String) :=
  if st.streamExists then [st.streamToken] else []

/-- `CreateLogStream` at the store interface: fails if the stream already
exists, otherwise creates it with no token. -/
def createStreamOp (st : CWState) : CWState × Except String Unit :=
  if st.streamExists then
    (st, .error "ResourceAlreadyExistsException")
  else
    ({ st with streamExists := true, streamToken := none,
               createStreamCalls := st.createStreamCalls + 1 }, .ok ())

/-- `PutLogEvents` at the store interface: the append is accepted only when
the presented sequence token equals the stream's current upload token (a
mismatch is the token-conflict error); an accepted batch advances the
token. -/
def putLogEventsOp (st : CWState) (tok : Option String) (msgs : List String)
    (ts : Int) : CWState × Except String Unit :=
  if st.streamExists then
    if tok = st.streamToken then
      ({ st with
           streamToken := some (toString (st.batches.length + 1))
           batches := st.batches ++ [{ messages := msgs, timestamp := ts, sequenceToken := tok }] },
       .ok ())
    else (st, .error "InvalidSequenceTokenException")
  else (st, .error "ResourceNotFoundException")

/-- `createStream` (setting.go): issue a `CreateLogStream` request for the
configured group/stream. -/
def createStream (st : CWState) : CWState × Except String Unit :=
  createStreamOp st

/-- `token` (setting.go): describe the stream; if it does not exist, create
it (leaving the returned token nil), otherwise return the first stream's
upload sequence token. -/
def token (st : CWState) : CWState × Except String (Option String) :=
  match describeLogStreams st with
  | [] =>
      let c := createStream st
      (c.1, match c.2 with
            | .ok _ => .ok none
            | .error e => .error e)
  | t :: _ => (st, .ok t)

/-- JSON rendering of one condition inside `HpaConditionJsonString`
(`json.Marshal` of an `as_v2.HorizontalPodAutoscalerCondition`). -/
def conditionJson (c : Condition) : String :=
  "\x7b\"type\":\"" ++ c.condType ++ "\",\"status\":\"" ++ c.status ++
    "\",\"lastTransitionTime\":null,\"reason\":\"" ++ c.reason ++
    "\",\"message\":\"" ++ c.message ++ "\"\x7d"

/-- `HpaConditionJsonString` (setting.go): `json.Marshal` of the
`conditions` struct `\x7bname, conditions\x7d`. -/
def HpaConditionJsonString (a : HorizontalPodAutoscaler) : String :=
  "\x7b\"name\":\"" ++ a.name ++ "\",\"conditions\":[" ++
    String.intercalate "," (a.conditions.map conditionJson) ++ "]\x7d"

/-- `PutHPAConditionToCWLog` (setting.go): resolve the sequence token
(creating the stream when absent), serialize every snapshot to one log
event sharing one timestamp (`time.Now().Unix() * 1000`), and issue one
`PutLogEvents` request, returning its error verbatim. No token is retained
locally: the function's only state is the store itself. The `intf`
function models other writers acting on the store between the two network
calls. -/
def PutHPAConditionToCWLog (now : Int) (intf : CWState → CWState) (st : CWState)
    (hpa : List HorizontalPodAutoscaler) : CWState × Except String Unit :=
  match token st with
  | (st1, .error e) => (st1, .error e)
  | (st1, .ok t) =>
      let msgs := hpa.map HpaConditionJsonString
      putLogEventsOp (intf st1) t msgs (now * 1000)

/-- One iteration of the condition-logging goroutine loop (main.go lines
40-54). On fetch error the code logs and `continue`s (skipping the sleep).
On the `cwlogs` path the return value of `PutHPAConditionToCWLog` is
discarded and nothing is appended to the log output; on the stdout path
every snapshot's JSON string is logged. Either way the loop then sleeps
`LoggingInterval` seconds. -/
def loggingIteration (loggingTo : String) (interval : Int) (now : Int)
    (intf : CWState → CWState) (fetch : Except String (List HorizontalPodAutoscaler))
    (st : CWState) (logLines : List String) : CWState × List String × Int :=
  match fetch with
  | .error e => (st, logLines ++ ["error: " ++ e], 0)
  | .ok hpa =>
      if loggingTo = "cwlogs" then
        ((PutHPAConditionToCWLog now intf st hpa).1, logLines, interval)
      else
        (st, logLines ++ hpa.map HpaConditionJsonString, interval)

/-- The five replica-count/last-scale gauges of a registry, bundled so that
preservation under the metric and condition loops is one equation. -/
def replicaPart (r : Registry) :
    Gauge BaseLabels × Gauge BaseLabels × Gauge BaseLabels × Gauge BaseLabels × Gauge BaseLabels :=
  (r.hpaCurrentPodsNum, r.hpaDesiredPodsNum, r.hpaMinPodsNum, r.hpaMaxPodsNum,
    r.hpaLastScaleSecond)

/-- The scenario snapshot: autoscaler `"web"` in namespace `"prod"` with
`minReplicas = 2`, `maxReplicas = 10`, `currentReplicas = 3`, no last-scale
time, no metrics and no conditions. -/
def webSnapshot : HorizontalPodAutoscaler :=
  { name := "web"
    namespc := "prod"
    scaleTargetRef := { kind := "Deployment", name := "web", apiVersion := "apps/v1" }
    minReplicas := some 2
    maxReplicas := 10
    specMetrics := []
    currentReplicas := 3
    desiredReplicas := 3
    lastScaleTime := none
    currentMetrics := []
    conditions := [] }

/-- The base label set of `webSnapshot`. -/
def webBase : BaseLabels :=
  { hpa_name := "web"
    hpa_namespace := "prod"
    ref_kind := "Deployment"
    ref_name := "web"
    ref_apiversion := "apps/v1" }

/-- A log store in which the configured stream does not exist yet. -/
def cwFresh : CWState :=
  { streamExists := false, streamToken := none, batches := [], createStreamCalls := 0 }

/-- First ship call against the fresh store, with a one-snapshot list. -/
def shipOnce : CWState × Except String Unit :=
  PutHPAConditionToCWLog 1700000000 id cwFresh [webSnapshot]

/-- Second ship call, against the store state the first call left behind. -/
def shipTwice : CWState × Except String Unit :=
  PutHPAConditionToCWLog 1700000060 id shipOnce.1 [webSnapshot]

/-- A log store whose stream exists with upload token `"t1"`. -/
def cwWithToken : CWState :=
  { streamExists := true, streamToken := some "t1", batches := [], createStreamCalls := 0 }

/-- Interference by another writer that advances the stream token to
`"t2"` between the describe call and the put call. -/
def advanceToken (st : CWState) : CWState :=
  { st with streamToken := some "t2" }

theorem gaugeGet_gaugeSet_self {α : Type} [DecidableEq α] (l : Gauge α) (k : α) (v : ℚ) :
    gaugeGet (gaugeSet l k v) k = some v := by
  induction l with
  | nil => simp [gaugeSet, gaugeGet]
  | cons p t ih =>
      obtain ⟨k0, v0⟩ := p
      by_cases h : k0 = k
      · simp [gaugeSet, gaugeGet, h]
      · simp [gaugeSet, gaugeGet, h, ih]

theorem gaugeGet_gaugeSet_ne {α : Type} [DecidableEq α] (l : Gauge α) (k q : α) (v : ℚ)
    (h : q ≠ k) : gaugeGet (gaugeSet l k v) q = gaugeGet l q := by
  induction l with
  | nil => simp [gaugeSet, gaugeGet, Ne.symm h]
  | cons p t ih =>
      obtain ⟨k0, v0⟩ := p
      by_cases h0 : k0 = k
      · subst h0
        simp [gaugeSet, gaugeGet, Ne.symm h]
      · simp [gaugeSet, gaugeGet, h0, ih]

theorem replicaPart_projectSpecMetric (b : BaseLabels) (r : Registry) (m : MetricSpecEntry) :
    replicaPart (projectSpecMetric b r m) = replicaPart r := by
  cases m <;> rfl

theorem replicaPart_projectStatusMetric (b : BaseLabels) (r : Registry) (m : MetricStatusEntry) :
    replicaPart (projectStatusMetric b r m) = replicaPart r := by
  cases m <;> rfl

theorem replicaPart_projectCondition (b : BaseLabels) (r : Registry) (cond : Condition) :
    replicaPart (projectCondition b r cond) = replicaPart r := by
  unfold projectCondition
  by_cases h1 : cond.condType = "AbleToScale"
  · simp [h1, replicaPart]
  · by_cases h2 : cond.condType = "ScalingActive"
    · simp [h1, h2, replicaPart]
    · by_cases h3 : cond.condType = "ScalingLimited"
      · simp [h1, h2, h3, replicaPart]
      · simp [h1, h2, h3, replicaPart]

theorem replicaPart_foldl_spec (b : BaseLabels) (l : List MetricSpecEntry) :
    ∀ r : Registry, replicaPart (l.foldl (projectSpecMetric b) r) = replicaPart r := by
  induction l with
  | nil => intro r; rfl
  | cons m t ih => intro r; rw [List.foldl_cons, ih, replicaPart_projectSpecMetric]

theorem replicaPart_foldl_status (b : BaseLabels) (l : List MetricStatusEntry) :
    ∀ r : Registry, replicaPart (l.foldl (projectStatusMetric b) r) = replicaPart r := by
  induction l with
  | nil => intro r; rfl
  | cons m t ih => intro r; rw [List.foldl_cons, ih, replicaPart_projectStatusMetric]

theorem replicaPart_foldl_cond (b : BaseLabels) (l : List Condition) :
    ∀ r : Registry, replicaPart (l.foldl (projectCondition b) r) = replicaPart r := by
  induction l with
  | nil => intro r; rfl
  | cons c t ih => intro r; rw [List.foldl_cons, ih, replicaPart_projectCondition]

theorem makeAnno_status_ne (cond : Condition) :
    (MakeAnnotationCondLabels cond).1.cond_status ≠ (MakeAnnotationCondLabels cond).2.cond_status := by
  by_cases hs : cond.status = "True"
  · simp [MakeAnnotationCondLabels, hs]
  · simp [MakeAnnotationCondLabels, hs]

theorem condLabels_pair_ne (b : BaseLabels) (cond : Condition) :
    ((b, (MakeAnnotationCondLabels cond).1) : BaseLabels × CondLabels) ≠
      (b, (MakeAnnotationCondLabels cond).2) := by
  intro h
  exact makeAnno_status_ne cond (congrArg (fun p => p.2.cond_status) h)

theorem projectCondition_ableToScale (b : BaseLabels) (r : Registry) (cond : Condition)
    (h : cond.condType = "AbleToScale") :
    (projectCondition b r cond).hpaAbleToScale =
      gaugeSet (gaugeSet r.hpaAbleToScale (b, (MakeAnnotationCondLabels cond).1) 1)
        (b, (MakeAnnotationCondLabels cond).2) 0 := by
  simp [projectCondition, h]

theorem projectCondition_scalingActive (b : BaseLabels) (r : Registry) (cond : Condition)
    (h : cond.condType = "ScalingActive") :
    (projectCondition b r cond).hpaScalingActive =
      gaugeSet (gaugeSet r.hpaScalingActive (b, (MakeAnnotationCondLabels cond).1) 1)
        (b, (MakeAnnotationCondLabels cond).2) 0 := by
  simp [projectCondition, h]

theorem projectCondition_scalingLimited (b : BaseLabels) (r : Registry) (cond : Condition)
    (h : cond.condType = "ScalingLimited") :
    (projectCondition b r cond).hpaScalingLimited =
      gaugeSet (gaugeSet r.hpaScalingLimited (b, (MakeAnnotationCondLabels cond).1) 1)
        (b, (MakeAnnotationCondLabels cond).2) 0 := by
  simp [projectCondition, h]

theorem gauge_fwd_rev (g : Gauge (BaseLabels × CondLabels)) (b : BaseLabels) (cond : Condition) :
    gaugeGet (gaugeSet (gaugeSet g (b, (MakeAnnotationCondLabels cond).1) 1)
        (b, (MakeAnnotationCondLabels cond).2) 0) (b, (MakeAnnotationCondLabels cond).1) = some 1 ∧
    gaugeGet (gaugeSet (gaugeSet g (b, (MakeAnnotationCondLabels cond).1) 1)
        (b, (MakeAnnotationCondLabels cond).2) 0) (b, (MakeAnnotationCondLabels cond).2) = some 0 := by
  constructor
  · rw [gaugeGet_gaugeSet_ne _ _ _ _ (condLabels_pair_ne b cond), gaugeGet_gaugeSet_self]
  · exact gaugeGet_gaugeSet_self _ _ _

/-- Claim C1: for every condition, `MakeAnnotationCondLabels` produces a
forward label set carrying the condition's status/reason/message and a
reverse label set over the same three keys whose reason and message are
cleared and whose status always differs from the forward status; and for
each of the three known condition types, processing the condition sets the
corresponding gauge to exactly 1 at the forward labels and exactly 0 at the
reverse labels — never both 1 or both 0, the two label sets being distinct. -/
theorem C1_condition_encoding :
    (∀ cond : Condition,
      (MakeAnnotationCondLabels cond).1 =
        { cond_status := cond.status, cond_reason := cond.reason, cond_message := cond.message } ∧
      (MakeAnnotationCondLabels cond).2.cond_reason = "" ∧
      (MakeAnnotationCondLabels cond).2.cond_message = "" ∧
      (MakeAnnotationCondLabels cond).1.cond_status ≠ (MakeAnnotationCondLabels cond).2.cond_status) ∧
    (∀ (st re me : String) (b : BaseLabels) (r : Registry),
      (gaugeGet (projectCondition b r { condType := "AbleToScale", status := st, reason := re, message := me }).hpaAbleToScale
          (b, (MakeAnnotationCondLabels { condType := "AbleToScale", status := st, reason := re, message := me }).1) = some 1 ∧
       gaugeGet (projectCondition b r { condType := "AbleToScale", status := st, reason := re, message := me }).hpaAbleToScale
          (b, (MakeAnnotationCondLabels { condType := "AbleToScale", status := st, reason := re, message := me }).2) = some 0) ∧
      (gaugeGet (projectCondition b r { condType := "ScalingActive", status := st, reason := re, message := me }).hpaScalingActive
          (b, (MakeAnnotationCondLabels { condType := "ScalingActive", status := st, reason := re, message := me }).1) = some 1 ∧
       gaugeGet (projectCondition b r { condType := "ScalingActive", status := st, reason := re, message := me }).hpaScalingActive
          (b, (MakeAnnotationCondLabels { condType := "ScalingActive", status := st, reason := re, message := me }).2) = some 0) ∧
      (gaugeGet (projectCondition b r { condType := "ScalingLimited", status := st, reason := re, message := me }).hpaScalingLimited
          (b, (MakeAnnotationCondLabels { condType := "ScalingLimited", status := st, reason := re, message := me }).1) = some 1 ∧
       gaugeGet (projectCondition b r { condType := "ScalingLimited", status := st, reason := re, message := me }).hpaScalingLimited
          (b, (MakeAnnotationCondLabels { condType := "ScalingLimited", status := st, reason := re, message := me }).2) = some 0)) := by
  constructor
  · intro cond
    exact ⟨rfl, rfl, rfl, makeAnno_status_ne cond⟩
  · intro st re me b r
    refine ⟨?_, ?_, ?_⟩
    · rw [projectCondition_ableToScale b r _ rfl]
      exact gauge_fwd_rev r.hpaAbleToScale b _
    · rw [projectCondition_scalingActive b r _ rfl]
      exact gauge_fwd_rev r.hpaScalingActive b _
    · rw [projectCondition_scalingLimited b r _ rfl]
      exact gauge_fwd_rev r.hpaScalingLimited b _

/-- Claim C8: projection always emits the current-, desired- and
max-replica gauges under the base label set; the min-replica gauge is
emitted exactly when the optional minReplicas field is present and the
last-scale gauge exactly when the optional last-scale timestamp is present;
and the concrete `"web"`/`"prod"` snapshot with min 2, max 10, current 3,
no last-scale time, no metrics and no conditions populates exactly the four
replica gauges and nothing else. -/
theorem C8_replica_gauge_emission :
    (∀ a : HorizontalPodAutoscaler,
      gaugeGet (projectSnapshot a emptyRegistry).hpaCurrentPodsNum (baseLabelOf a) =
        some ((a.currentReplicas : ℚ)) ∧
      gaugeGet (projectSnapshot a emptyRegistry).hpaDesiredPodsNum (baseLabelOf a) =
        some ((a.desiredReplicas : ℚ)) ∧
      gaugeGet (projectSnapshot a emptyRegistry).hpaMinPodsNum (baseLabelOf a) =
        Option.map (fun m : Int => (m : ℚ)) a.minReplicas ∧
      gaugeGet (projectSnapshot a emptyRegistry).hpaMaxPodsNum (baseLabelOf a) =
        some ((a.maxReplicas : ℚ)) ∧
      gaugeGet (projectSnapshot a emptyRegistry).hpaLastScaleSecond (baseLabelOf a) =
        Option.map (fun t : Int => (t : ℚ)) a.lastScaleTime) ∧
    projectSnapshot webSnapshot emptyRegistry =
      { hpaCurrentPodsNum := [(webBase, ((3 : Int) : ℚ))]
        hpaDesiredPodsNum := [(webBase, ((3 : Int) : ℚ))]
        hpaMinPodsNum := [(webBase, ((2 : Int) : ℚ))]
        hpaMaxPodsNum := [(webBase, ((10 : Int) : ℚ))]
        hpaLastScaleSecond := []
        hpaCurrentMetricsValue := []
        hpaTargetMetricsValue := []
        hpaAbleToScale := []
        hpaScalingActive := []
        hpaScalingLimited := [] } := by
  constructor
  · intro a
    have hfold : replicaPart (projectSnapshot a emptyRegistry) =
        replicaPart (projectReplicaGauges (baseLabelOf a) a emptyRegistry) := by
      unfold projectSnapshot
      rw [replicaPart_foldl_cond, replicaPart_foldl_status, replicaPart_foldl_spec]
    simp only [replicaPart, Prod.mk.injEq] at hfold
    obtain ⟨h1, h2, h3, h4, h5⟩ := hfold
    refine ⟨?_, ?_, ?_, ?_, ?_⟩
    · rw [h1]
      cases hmin : a.minReplicas <;> cases hlast : a.lastScaleTime <;>
        simp [projectReplicaGauges, hmin, hlast, gaugeSet, gaugeGet]
    · rw [h2]
      cases hmin : a.minReplicas <;> cases hlast : a.lastScaleTime <;>
        simp [projectReplicaGauges, hmin, hlast, gaugeSet, gaugeGet]
    · rw [h3]
      cases hmin : a.minReplicas <;> cases hlast : a.lastScaleTime <;>
        simp [projectReplicaGauges, hmin, hlast, gaugeSet, gaugeGet]
    · rw [h4]
      cases hmin : a.minReplicas <;> cases hlast : a.lastScaleTime <;>
        simp [projectReplicaGauges, hmin, hlast, gaugeSet, gaugeGet]
    · rw [h5]
      cases hmin : a.minReplicas <;> cases hlast : a.lastScaleTime <;>
        simp [projectReplicaGauges, hmin, hlast, gaugeSet, gaugeGet]
  · rfl

/-- Claim C2: for each of the four metric-source kinds, the target-spec
extractor and the current-status extractor applied to entries carrying the
same underlying quantity of `q` milli-units both produce value `q / 1000`
(so spec and status agree after milli-unit scaling). For the Resource kind
the quantity path is the one with utilization absent; for the External kind
both the plain-value path and the average-value path are covered. -/
theorem C2_spec_status_milli_agreement :
    ∀ (q : Int) (tgt : CrossVersionObjectReference) (mn rname : String) (tv : Int),
      (ParseObjectSpec { target := tgt, metricName := mn, targetValue := q }).Value = (q : ℚ) / 1000 ∧
      (ParseObjectStatus { target := tgt, metricName := mn, currentValue := q }).Value = (q : ℚ) / 1000 ∧
      (ParsePodsSpec { metricName := mn, targetAverageValue := q }).Value = (q : ℚ) / 1000 ∧
      (ParsePodsStatus { metricName := mn, currentAverageValue := q }).Value = (q : ℚ) / 1000 ∧
      (ParseResourceSpec { name := rname, targetAverageUtilization := none, targetAverageValue := q }).Value = (q : ℚ) / 1000 ∧
      (ParseResourceStatus { name := rname, currentAverageUtilization := none, currentAverageValue := q }).Value = (q : ℚ) / 1000 ∧
      (ParseExternalSpec { metricName := mn, targetValue := q, targetAverageValue := none }).Value = (q : ℚ) / 1000 ∧
      (ParseExternalStatus { metricName := mn, currentValue := q, currentAverageValue := none }).Value = (q : ℚ) / 1000 ∧
      (ParseExternalSpec { metricName := mn, targetValue := tv, targetAverageValue := some q }).Value = (q : ℚ) / 1000 ∧
      (ParseExternalStatus { metricName := mn, currentValue := tv, currentAverageValue := some q }).Value = (q : ℚ) / 1000 := by
  intro q tgt mn rname tv
  exact ⟨rfl, rfl, rfl, rfl, rfl, rfl, rfl, rfl, rfl, rfl⟩

/-- Claim C3 (amended): when the fetch of the autoscaler list fails, the
metrics loop logs the error and performs no reset and no projection (the
previous registry contents remain), but it retries immediately — the
`continue` skips the `time.Sleep`, so the wait is 0 rather than the fixed
poll interval that follows a successful cycle. -/
theorem C3_fetch_error_behavior :
    ∀ (interval : Int) (e : String) (r : Registry) (logLines : List String)
      (hpa : List HorizontalPodAutoscaler),
      pollIteration interval (Except.error e) r logLines = (r, logLines ++ ["error: " ++ e], 0) ∧
      (pollIteration interval (Except.ok hpa) r logLines).2.2 = interval := by
  intro interval e r logLines hpa
  exact ⟨rfl, rfl⟩

/-- Claim C3 counterexample: with the default 30-second interval, the cycle
after a failed fetch waits 0 seconds while the cycle after a successful
fetch waits 30 — the claim that both wait the same fixed interval is false. -/
theorem C3_counterexample :
    (pollIteration 30 (Except.error "connection refused") emptyRegistry []).2.2 = 0 ∧
    (pollIteration 30 (Except.ok []) emptyRegistry []).2.2 = 30 ∧
    (pollIteration 30 (Except.error "connection refused") emptyRegistry []).2.2 ≠
      (pollIteration 30 (Except.ok []) emptyRegistry []).2.2 := by
  refine ⟨rfl, rfl, ?_⟩
  decide

/-- Claim C4 (amended): when the log-store append fails, the ship operation
propagates the store error to its caller (no token state is retained
locally — the token is re-read from the store on every call), but the
caller discards the returned error without logging anything and simply
retries on the next cycle after the usual interval. -/
theorem C4_store_error_propagation :
    ∀ (now interval : Int) (intf : CWState → CWState) (st st1 st2 : CWState)
      (t : Option String) (e : String) (hpa : List HorizontalPodAutoscaler)
      (logLines : List String),
      token st = (st1, Except.ok t) →
      putLogEventsOp (intf st1) t (hpa.map HpaConditionJsonString) (now * 1000) =
        (st2, Except.error e) →
      PutHPAConditionToCWLog now intf st hpa = (st2, Except.error e) ∧
      loggingIteration "cwlogs" interval now intf (Except.ok hpa) st logLines =
        (st2, logLines, interval) := by
  intro now interval intf st st1 st2 t e hpa logLines htok hput
  have hship : PutHPAConditionToCWLog now intf st hpa = (st2, Except.error e) := by
    unfold PutHPAConditionToCWLog
    rw [htok]
    exact hput
  refine ⟨hship, ?_⟩
  unfold loggingIteration
  simp [hship]

/-- Claim C4 witness: a concrete token conflict (another writer advanced the
stream token from `"t1"` to `"t2"` between the describe and the put): the
ship call returns the conflict error and the caller's iteration ends with
the log output unchanged and the normal interval sleep. -/
theorem C4_store_error_witness :
    PutHPAConditionToCWLog 1700000000 advanceToken cwWithToken [] =
      ({ cwWithToken with streamToken := some "t2" }, Except.error "InvalidSequenceTokenException") ∧
    loggingIteration "cwlogs" 60 1700000000 advanceToken (Except.ok []) cwWithToken [] =
      ({ cwWithToken with streamToken := some "t2" }, [], 60) :=
  C4_store_error_propagation 1700000000 60 advanceToken cwWithToken cwWithToken
    { cwWithToken with streamToken := some "t2" } (some "t1") "InvalidSequenceTokenException"
    [] [] rfl rfl

/-- Claim C4 counterexample: in the same token-conflict scenario with one
snapshot, the ship operation returns the store error, yet the caller's log
output stays empty — the code discards the error instead of logging it, so
the claim that the caller logs the error is false. -/
theorem C4_counterexample :
    (PutHPAConditionToCWLog 1700000000 advanceToken cwWithToken [webSnapshot]).2 =
      Except.error "InvalidSequenceTokenException" ∧
    (loggingIteration "cwlogs" 60 1700000000 advanceToken (Except.ok [webSnapshot])
        cwWithToken []).2.1 = [] :=
  ⟨rfl, rfl⟩

/-- Claim C5: starting from a store in which the configured stream does not
exist, one ship call with one snapshot issues exactly one stream-creation
request and appends one batch of one record (with no prior token); a second
ship call on the resulting store issues no further stream creation and
appends using the stream's current upload sequence token. -/
theorem C5_lazy_stream_creation :
    shipOnce.1.createStreamCalls = 1 ∧
    shipOnce.2 = Except.ok () ∧
    shipOnce.1.batches.map (fun bt => bt.messages.length) = [1] ∧
    shipOnce.1.batches.map (fun bt => bt.sequenceToken) = [none] ∧
    shipOnce.1.streamToken = some "1" ∧
    shipTwice.1.createStreamCalls = 1 ∧
    shipTwice.2 = Except.ok () ∧
    shipTwice.1.batches.length = 2 ∧
    shipTwice.1.batches.map (fun bt => bt.sequenceToken) = [none, some "1"] :=
  ⟨rfl, rfl, rfl, rfl, rfl, rfl, rfl, rfl, rfl⟩

/-- Claim C6: a Resource entry with utilization present yields the
utilization as the value (the average value is ignored) and metricName
`"-"`; with utilization absent and average value 1500 milli-units it yields
1.5; the same holds for the Resource status extractor. -/
theorem C6_resource_utilization_precedence :
    ∀ (nm : String) (u av : Int),
      (ParseResourceSpec { name := nm, targetAverageUtilization := some u, targetAverageValue := av }).Value = (u : ℚ) ∧
      (ParseResourceSpec { name := nm, targetAverageUtilization := some u, targetAverageValue := av }).MetricName = "-" ∧
      (ParseResourceSpec { name := nm, targetAverageUtilization := none, targetAverageValue := 1500 }).Value = 3 / 2 ∧
      (ParseResourceStatus { name := nm, currentAverageUtilization := some u, currentAverageValue := av }).Value = (u : ℚ) ∧
      (ParseResourceStatus { name := nm, currentAverageUtilization := some u, currentAverageValue := av }).MetricName = "-" ∧
      (ParseResourceStatus { name := nm, currentAverageUtilization := none, currentAverageValue := 1500 }).Value = 3 / 2 := by
  intro nm u av
  refine ⟨rfl, rfl, ?_, rfl, rfl, ?_⟩
  · show ((1500 : Int) : ℚ) / 1000 = 3 / 2
    norm_num
  · show ((1500 : Int) : ℚ) / 1000 = 3 / 2
    norm_num

/-- Claim C7: an External entry with average value absent and target value
2000 milli-units yields kind `"External"`, name `"-"`, value 2; when the
average value is present it is used (milli-scaled) regardless of the target
value. -/
theorem C7_external_extractor :
    ∀ (mn : String) (tv a : Int),
      ParseExternalSpec { metricName := mn, targetValue := 2000, targetAverageValue := none } =
        { Kind := "External", Name := "-", MetricName := mn, Value := 2 } ∧
      (ParseExternalSpec { metricName := mn, targetValue := tv, targetAverageValue := some a }).Value = (a : ℚ) / 1000 := by
  intro mn tv a
  constructor
  · simp [ParseExternalSpec]
    norm_num
  · rfl

/-- Claim C9 (amended): the pods and external extractors put the sentinel
`"-"` in the name field while keeping the source's metric name in the
metricName field; the resource extractor puts `"-"` in the metricName field
while keeping the resource identifier in the name field — each field is
`"-"` exactly when its variant has no natural value for it, not both at
once. -/
theorem C9_sentinel_fields :
    ∀ (p : PodsMetricSource) (rs : ResourceMetricSource) (e : ExternalMetricSource),
      (ParsePodsSpec p).Name = "-" ∧
      (ParsePodsSpec p).MetricName = p.metricName ∧
      (ParseResourceSpec rs).MetricName = "-" ∧
      (ParseResourceSpec rs).Name = rs.name ∧
      (ParseExternalSpec e).Name = "-" ∧
      (ParseExternalSpec e).MetricName = e.metricName := by
  intro p rs e
  exact ⟨rfl, rfl, rfl, rfl, rfl, rfl⟩

/-- Claim C9 counterexample: a pods entry with metric name
`"http_requests"` produces a record whose metricName field is
`"http_requests"`, not `"-"` — name and metricName are not both the
sentinel. -/
theorem C9_counterexample :
    (ParsePodsSpec { metricName := "http_requests", targetAverageValue := 1000 }).MetricName = "http_requests" ∧
    (ParsePodsSpec { metricName := "http_requests", targetAverageValue := 1000 }).MetricName ≠ "-" :=
  ⟨rfl, by decide⟩

/-- Claim C10: the reverse label status is `"False"` exactly when the
forward status is `"True"`, and for any other status (for example
`"Unknown"`) the reverse status is `"True"`. -/
theorem C10_reverse_status :
    ∀ cond : Condition,
      ((MakeAnnotationCondLabels cond).2.cond_status = "False" ↔ cond.status = "True") ∧
      (cond.status ≠ "True" → (MakeAnnotationCondLabels cond).2.cond_status = "True") := by
  intro cond
  by_cases hs : cond.status = "True"
  · simp [MakeAnnotationCondLabels, hs]
  · simp [MakeAnnotationCondLabels, hs]

/-- Claim C10 witness: a condition with the orchestrator status
`"Unknown"` (neither `"True"` nor `"False"`) gets reverse status
`"True"`. -/
theorem C10_reverse_status_witness :
    (MakeAnnotationCondLabels
      { condType := "AbleToScale", status := "Unknown", reason := "rsn", message := "msg" }).2.cond_status = "True" :=
  (C10_reverse_status
    { condType := "AbleToScale", status := "Unknown", reason := "rsn", message := "msg" }).2 (by decide)

end HpaExporter
